import Mathlib

/-!
Verification development for `source/api_cc/include/DeepPotPD.h`: the Paddle
backend adapter class `deepmd::DeepPotPD` of the DeePMD-kit potential
evaluation framework.

The header declares the public forwarding entry points (`computew`,
`computew_mixed_type`), the private `compute` / `compute_mixed_type`
templates, the constructors and `init`, several inline `const` accessors
(`cutoff`, `dim_fparam`, `dim_aparam`, `is_aparam_nall`), the inline tensor
helpers `numel` and `print_shape`, and the data members of the class.

The embedding below has two layers:
* a syntactic layer transcribing the C++ declarations (parameter lists with
  direction, type and default value, and the data-member list) as Lean data;
* a semantic layer for the inline function bodies (transcribed directly) and,
  where the header only declares a function whose body lives in the missing
  `.cc` translation unit, a model built from the specification text (each such
  definition carries a doc comment starting with `Modelled from the spec:`).
-/

namespace deepmd

/-- C++ surface types appearing in the declarations of `DeepPotPD.h`
(references and const-qualification are abstracted away). -/
inductive CppType where
  | double
  | float
  | int
  | bool
  | stdString
  | vecDouble
  | vecFloat
  | vecInt
  | inputNlist
  | sharedPtrConfig
  | sharedPtrPredictor
  | uniquePtrTensor
  | neighborListData
  deriving DecidableEq, BEq, Repr

/-- Parameter direction: `@param[in]` or `@param[out]` in the header. -/
inductive Dir where
  | inP
  | outP
  deriving DecidableEq, BEq, Repr

/-- One parameter of a C++ declaration: name, direction, surface type. -/
structure Param where
  pname : String
  dir : Dir
  ty : CppType
  deriving DecidableEq, BEq, Repr

/-- The `std::vector` element type for a scalar `VALUETYPE`. -/
def vecOf : CppType → CppType
  | CppType.double => CppType.vecDouble
  | CppType.float => CppType.vecFloat
  | CppType.int => CppType.vecInt
  | t => t

/-- Signature of `DeepPotPD::computew` without a neighbor list
(header lines 296-317), at element type `v` (`double` or `float`);
`ener` is `std::vector<double>` in both overloads. -/
def computew_sig (v : CppType) : List Param :=
  [⟨"ener", Dir.outP, CppType.vecDouble⟩,
   ⟨"force", Dir.outP, vecOf v⟩,
   ⟨"virial", Dir.outP, vecOf v⟩,
   ⟨"atom_energy", Dir.outP, vecOf v⟩,
   ⟨"atom_virial", Dir.outP, vecOf v⟩,
   ⟨"coord", Dir.inP, vecOf v⟩,
   ⟨"atype", Dir.inP, CppType.vecInt⟩,
   ⟨"box", Dir.inP, vecOf v⟩,
   ⟨"fparam", Dir.inP, vecOf v⟩,
   ⟨"aparam", Dir.inP, vecOf v⟩,
   ⟨"atomic", Dir.inP, CppType.bool⟩]

/-- Signature of `DeepPotPD::computew` with a neighbor list
(header lines 318-345): the extra inputs `nghost`, `inlist`, `ago`. -/
def computew_nlist_sig (v : CppType) : List Param :=
  [⟨"ener", Dir.outP, CppType.vecDouble⟩,
   ⟨"force", Dir.outP, vecOf v⟩,
   ⟨"virial", Dir.outP, vecOf v⟩,
   ⟨"atom_energy", Dir.outP, vecOf v⟩,
   ⟨"atom_virial", Dir.outP, vecOf v⟩,
   ⟨"coord", Dir.inP, vecOf v⟩,
   ⟨"atype", Dir.inP, CppType.vecInt⟩,
   ⟨"box", Dir.inP, vecOf v⟩,
   ⟨"nghost", Dir.inP, CppType.int⟩,
   ⟨"inlist", Dir.inP, CppType.inputNlist⟩,
   ⟨"ago", Dir.inP, CppType.int⟩,
   ⟨"fparam", Dir.inP, vecOf v⟩,
   ⟨"aparam", Dir.inP, vecOf v⟩,
   ⟨"atomic", Dir.inP, CppType.bool⟩]

/-- Signature of `DeepPotPD::computew_mixed_type` (header lines 346-369). -/
def computew_mixed_type_sig (v : CppType) : List Param :=
  [⟨"ener", Dir.outP, CppType.vecDouble⟩,
   ⟨"force", Dir.outP, vecOf v⟩,
   ⟨"virial", Dir.outP, vecOf v⟩,
   ⟨"atom_energy", Dir.outP, vecOf v⟩,
   ⟨"atom_virial", Dir.outP, vecOf v⟩,
   ⟨"nframes", Dir.inP, CppType.int⟩,
   ⟨"coord", Dir.inP, vecOf v⟩,
   ⟨"atype", Dir.inP, CppType.vecInt⟩,
   ⟨"box", Dir.inP, vecOf v⟩,
   ⟨"fparam", Dir.inP, vecOf v⟩,
   ⟨"aparam", Dir.inP, vecOf v⟩,
   ⟨"atomic", Dir.inP, CppType.bool⟩]

/-- Signature of the private template `DeepPotPD::compute` without a
neighbor list (header lines 64-75), instantiated at `VALUETYPE = v` and
`ENERGYVTYPE = ev`. -/
def compute_sig (v ev : CppType) : List Param :=
  [⟨"ener", Dir.outP, ev⟩,
   ⟨"force", Dir.outP, vecOf v⟩,
   ⟨"virial", Dir.outP, vecOf v⟩,
   ⟨"atom_energy", Dir.outP, vecOf v⟩,
   ⟨"atom_virial", Dir.outP, vecOf v⟩,
   ⟨"coord", Dir.inP, vecOf v⟩,
   ⟨"atype", Dir.inP, CppType.vecInt⟩,
   ⟨"box", Dir.inP, vecOf v⟩,
   ⟨"fparam", Dir.inP, vecOf v⟩,
   ⟨"aparam", Dir.inP, vecOf v⟩,
   ⟨"atomic", Dir.inP, CppType.bool⟩]

/-- Signature of the private template `DeepPotPD::compute` with a neighbor
list (header lines 102-116). -/
def compute_nlist_sig (v ev : CppType) : List Param :=
  [⟨"ener", Dir.outP, ev⟩,
   ⟨"force", Dir.outP, vecOf v⟩,
   ⟨"virial", Dir.outP, vecOf v⟩,
   ⟨"atom_energy", Dir.outP, vecOf v⟩,
   ⟨"atom_virial", Dir.outP, vecOf v⟩,
   ⟨"coord", Dir.inP, vecOf v⟩,
   ⟨"atype", Dir.inP, CppType.vecInt⟩,
   ⟨"box", Dir.inP, vecOf v⟩,
   ⟨"nghost", Dir.inP, CppType.int⟩,
   ⟨"lmp_list", Dir.inP, CppType.inputNlist⟩,
   ⟨"ago", Dir.inP, CppType.int⟩,
   ⟨"fparam", Dir.inP, vecOf v⟩,
   ⟨"aparam", Dir.inP, vecOf v⟩,
   ⟨"atomic", Dir.inP, CppType.bool⟩]

/-- Signature of the private template `DeepPotPD::compute_mixed_type` with
atomic outputs (header lines 176-188). -/
def compute_mixed_type_sig (v ev : CppType) : List Param :=
  [⟨"ener", Dir.outP, ev⟩,
   ⟨"force", Dir.outP, vecOf v⟩,
   ⟨"virial", Dir.outP, vecOf v⟩,
   ⟨"atom_energy", Dir.outP, vecOf v⟩,
   ⟨"atom_virial", Dir.outP, vecOf v⟩,
   ⟨"nframes", Dir.inP, CppType.int⟩,
   ⟨"coord", Dir.inP, vecOf v⟩,
   ⟨"atype", Dir.inP, CppType.vecInt⟩,
   ⟨"box", Dir.inP, vecOf v⟩,
   ⟨"fparam", Dir.inP, vecOf v⟩,
   ⟨"aparam", Dir.inP, vecOf v⟩,
   ⟨"atomic", Dir.inP, CppType.bool⟩]

/-- Signature of the private template `DeepPotPD::compute_mixed_type`
without atomic outputs (header lines 140-150). -/
def compute_mixed_type_noatom_sig (v ev : CppType) : List Param :=
  [⟨"ener", Dir.outP, ev⟩,
   ⟨"force", Dir.outP, vecOf v⟩,
   ⟨"virial", Dir.outP, vecOf v⟩,
   ⟨"nframes", Dir.inP, CppType.int⟩,
   ⟨"coord", Dir.inP, vecOf v⟩,
   ⟨"atype", Dir.inP, CppType.vecInt⟩,
   ⟨"box", Dir.inP, vecOf v⟩,
   ⟨"fparam", Dir.inP, vecOf v⟩,
   ⟨"aparam", Dir.inP, vecOf v⟩,
   ⟨"atomic", Dir.inP, CppType.bool⟩]

/-- The potential-evaluation entry points: the six public `computew` /
`computew_mixed_type` overloads and the private templates they forward to,
at the instantiations the forwarders use (`VALUETYPE` is `double` or
`float`, `ENERGYVTYPE` is `std::vector<double>` as fixed by the `ener`
parameter of every forwarder). -/
def entrySigs : List (List Param) :=
  [computew_sig CppType.double, computew_sig CppType.float,
   computew_nlist_sig CppType.double, computew_nlist_sig CppType.float,
   computew_mixed_type_sig CppType.double, computew_mixed_type_sig CppType.float,
   compute_sig CppType.double CppType.vecDouble,
   compute_sig CppType.float CppType.vecDouble,
   compute_nlist_sig CppType.double CppType.vecDouble,
   compute_nlist_sig CppType.float CppType.vecDouble,
   compute_mixed_type_sig CppType.double CppType.vecDouble,
   compute_mixed_type_sig CppType.float CppType.vecDouble]

/-- Whether a C++ surface type is a plain numeric vector
(`std::vector` of `double`, `float` or `int`). -/
def isNumVec : CppType → Bool
  | CppType.vecDouble => true
  | CppType.vecFloat => true
  | CppType.vecInt => true
  | _ => false

/-- A signature takes coordinates, types, box, and frame/atomic parameters
as plain numeric input vectors, and returns energy, force, virial and the
per-atom breakdowns through plain numeric output vectors. -/
def plainNumericVectors (sig : List Param) : Bool :=
  (["coord", "atype", "box", "fparam", "aparam"].all fun nm =>
      sig.any fun p => p.pname == nm && p.dir == Dir.inP && isNumVec p.ty) &&
  (["ener", "force", "virial", "atom_energy", "atom_virial"].all fun nm =>
      sig.any fun p => p.pname == nm && p.dir == Dir.outP && isNumVec p.ty)

/-- A default-argument value in a C++ declaration. -/
inductive CppDefaultVal where
  | noDefault
  | intVal (n : Int)
  | strVal (s : String)
  deriving DecidableEq, BEq, Repr

/-- One parameter of `init` or of the initializing constructor:
name, surface type and default value. -/
structure DeclParam where
  pname : String
  ty : CppType
  dflt : CppDefaultVal
  deriving DecidableEq, BEq, Repr

/-- Signature of `DeepPotPD::init` (header lines 36-38). -/
def init_sig : List DeclParam :=
  [⟨"model", CppType.stdString, CppDefaultVal.noDefault⟩,
   ⟨"gpu_rank", CppType.int, CppDefaultVal.intVal 0⟩,
   ⟨"file_content", CppType.stdString, CppDefaultVal.strVal ""⟩]

/-- Signature of the initializing constructor `DeepPotPD::DeepPotPD`
(header lines 26-28). -/
def ctor_sig : List DeclParam :=
  [⟨"model", CppType.stdString, CppDefaultVal.noDefault⟩,
   ⟨"gpu_rank", CppType.int, CppDefaultVal.intVal 0⟩,
   ⟨"file_content", CppType.stdString, CppDefaultVal.strVal ""⟩]

/-- The data members of `class DeepPotPD` (header lines 371-395), in
declaration order. -/
def dataMembers : List (String × CppType) :=
  [("num_intra_nthreads", CppType.int),
   ("num_inter_nthreads", CppType.int),
   ("inited", CppType.bool),
   ("ntypes", CppType.int),
   ("ntypes_spin", CppType.int),
   ("dfparam", CppType.int),
   ("daparam", CppType.int),
   ("aparam_nall", CppType.int),
   ("config", CppType.sharedPtrConfig),
   ("predictor", CppType.sharedPtrPredictor),
   ("config_fl", CppType.sharedPtrConfig),
   ("predictor_fl", CppType.sharedPtrPredictor),
   ("rcut", CppType.double),
   ("nlist_data", CppType.neighborListData),
   ("max_num_neighbors", CppType.int),
   ("gpu_id", CppType.int),
   ("do_message_passing", CppType.int),
   ("gpu_enabled", CppType.bool),
   ("firstneigh_tensor", CppType.uniquePtrTensor)]

/-- Modelled from the spec: the serialized model exposes two inference
graphs, the direct `forward` graph and the `forward_lower`
(message-passing, neighbor-list-based) graph. -/
inductive Graph where
  | forward
  | forwardLower
  deriving DecidableEq, BEq, Repr

/-- Modelled from the spec: an inference-engine `Config` binds one graph of
the loaded model bytes. -/
structure EngineConfig where
  graph : Graph
  modelBytes : String
  deriving DecidableEq, BEq, Repr

/-- Modelled from the spec: an inference-engine `Predictor` is created from
its `Config`. -/
structure EnginePredictor where
  cfg : EngineConfig
  deriving DecidableEq, BEq, Repr

/-- Modelled from the spec: the scalar metadata that `init` reads from the
loaded model (number of types, parameter dimensions, cutoff radius). The
stored `rcut` double is represented as a rational; no floating-point
arithmetic is performed on it in this header, it is only stored and
returned. -/
structure ModelMeta where
  ntypes : Int
  ntypes_spin : Int
  dfparam : Int
  daparam : Int
  aparam_nall : Int
  rcut : ℚ

/-- The state of a `DeepPotPD` object: the data members of the class that
the verified accessors and compute paths touch. `shared_ptr` members are
`Option` (null or pointing to an engine object). -/
structure DeepPotPD where
  inited : Bool
  ntypes : Int
  ntypes_spin : Int
  dfparam : Int
  daparam : Int
  aparam_nall : Int
  rcut : ℚ
  gpu_id : Int
  config : Option EngineConfig
  predictor : Option EnginePredictor
  config_fl : Option EngineConfig
  predictor_fl : Option EnginePredictor

/-- Modelled from the spec: the bytes of the serialized model that `init`
loads. Per the declaration's documentation, if `file_content` is not empty
the model is read from that string instead of from the file named `model`;
`fs` maps file names to file contents. -/
def loadedBytes (fs : String → String) (model : String)
    (file_content : String) : String :=
  if file_content ≠ "" then file_content else fs model

/-- Modelled from the spec: the body of `DeepPotPD::init` is in the missing
translation unit. Per the spec, `init` loads the serialized model, reads its
metadata, and builds one config/predictor pair for the direct `forward`
graph and one for the `forward_lower` graph. -/
def initState (meta : String → ModelMeta) (fs : String → String)
    (model : String) (gpu_rank : Int) (file_content : String) : DeepPotPD :=
  let bytes := loadedBytes fs model file_content
  let m := meta bytes
  { inited := true
    ntypes := m.ntypes
    ntypes_spin := m.ntypes_spin
    dfparam := m.dfparam
    daparam := m.daparam
    aparam_nall := m.aparam_nall
    rcut := m.rcut
    gpu_id := gpu_rank
    config := some ⟨Graph.forward, bytes⟩
    predictor := some ⟨⟨Graph.forward, bytes⟩⟩
    config_fl := some ⟨Graph.forwardLower, bytes⟩
    predictor_fl := some ⟨⟨Graph.forwardLower, bytes⟩⟩ }

/-- `DeepPotPD::cutoff` (header lines 195-198): `assert(inited); return
rcut;`. The assertion is modelled by `none` on an uninitialized object; the
returned state is the (unchanged) object, reflecting `const`. -/
def DeepPotPD.cutoff (dp : DeepPotPD) : Option ℚ × DeepPotPD :=
  (if dp.inited then some dp.rcut else none, dp)

/-- `DeepPotPD::dim_fparam` (header lines 219-222): `assert(inited); return
dfparam;`. -/
def DeepPotPD.dim_fparam (dp : DeepPotPD) : Option Int × DeepPotPD :=
  (if dp.inited then some dp.dfparam else none, dp)

/-- `DeepPotPD::dim_aparam` (header lines 227-230): `assert(inited); return
daparam;`. -/
def DeepPotPD.dim_aparam (dp : DeepPotPD) : Option Int × DeepPotPD :=
  (if dp.inited then some dp.daparam else none, dp)

/-- `DeepPotPD::is_aparam_nall` (header lines 259-262): `assert(inited);
return aparam_nall;` where `aparam_nall` is an `int` and the return type is
`bool`, so the returned value is the C++ int-to-bool conversion
(nonzero ↦ `true`). -/
def DeepPotPD.is_aparam_nall (dp : DeepPotPD) : Option Bool × DeepPotPD :=
  (if dp.inited then some (decide (dp.aparam_nall ≠ 0)) else none, dp)

/-- Two's-complement wrap-around of a 32-bit signed `int` multiplication
result: reduction into `[-2^31, 2^31)` modulo `2^32`. -/
def wrap32 (x : Int) : Int :=
  (x + 2147483648) % 4294967296 - 2147483648

/-- `DeepPotPD::numel` (header lines 285-293): `int ret = 1; for (i ...)
ret *= x_shape[i]; return ret;` with a 32-bit signed `int` accumulator. The
tensor argument enters only through `x.shape()`, so the function is
modelled on the shape list. -/
def numel (x_shape : List Int) : Int :=
  x_shape.foldl (fun ret x => wrap32 (ret * x)) 1

/-- The loop of `DeepPotPD::print_shape` (header lines 271-276): appends
`", "` before every entry except the first (`i > 0`), then the entry
itself. -/
def shape_str_loop : List Int → Nat → String → String
  | [], _, acc => acc
  | x :: xs, i, acc =>
      shape_str_loop xs (i + 1) ((if 0 < i then acc ++ ", " else acc) ++ toString x)

/-- `DeepPotPD::print_shape` (header lines 268-279): builds `"["`, the loop
over the shape entries, `"]"`, and writes the result to standard output.
The tensor argument enters only through `x.shape()`. -/
def print_shape (x_shape : List Int) : String :=
  shape_str_loop x_shape 0 "[" ++ "]"

/-- The string `print_shape` is specified to emit: `[`, the shape entries
in order separated by `, `, then `]`. -/
def shape_spec_string (x_shape : List Int) : String :=
  "[" ++ String.intercalate ", " (x_shape.map toString) ++ "]"

/-- `print_shape` as a `const` member call: the pair of the text written to
standard output and the (unchanged) object. -/
def DeepPotPD.print_shape_run (dp : DeepPotPD) (x_shape : List Int) :
    String × DeepPotPD :=
  (print_shape x_shape, dp)

/-- The plain numeric input buffers of one evaluation call: coordinates,
atom types, box, frame and atomic parameters. -/
structure DirectIn (R : Type) where
  coord : List R
  atype : List Int
  box : List R
  fparam : List R
  aparam : List R

/-- The extra inputs of the neighbor-list overload: the number of ghost
atoms, the input neighbor list (per-atom lists of neighbor indices), and
the `ago` counter. -/
structure NlistExtra where
  nghost : Int
  nlist : List (List Int)
  ago : Int

/-- Modelled from the spec: the trained model's math is out of scope for
this header; an abstract family of functions stands for what each inference
graph returns for given inputs (with the neighbor-list extras when the
lower graph is driven). -/
structure NetEval (R : Type) where
  ener : Graph → DirectIn R → Option NlistExtra → List R
  force : Graph → DirectIn R → Option NlistExtra → List R
  virial : Graph → DirectIn R → Option NlistExtra → List R
  atom_ener : Graph → DirectIn R → Option NlistExtra → List R
  atom_virial : Graph → DirectIn R → Option NlistExtra → List R

/-- The plain numeric output buffers of one evaluation call, tagged with
the inference graph that produced them. -/
structure ComputeOut (R : Type) where
  graphUsed : Graph
  ener : List R
  force : List R
  virial : List R
  atom_energy : List R
  atom_virial : List R

/-- Modelled from the spec: the private `compute` overload without a
neighbor list marshals the inputs into tensors, invokes the direct
`forward` graph through `predictor`, and unmarshals the outputs; the atomic
breakdowns are produced only when `atomic` is true. `none` models a null
predictor. -/
def compute {R : Type} (net : NetEval R) (dp : DeepPotPD) (inp : DirectIn R)
    (atomic : Bool) : Option (ComputeOut R) :=
  dp.predictor.map fun p =>
    { graphUsed := p.cfg.graph
      ener := net.ener p.cfg.graph inp none
      force := net.force p.cfg.graph inp none
      virial := net.virial p.cfg.graph inp none
      atom_energy := if atomic then net.atom_ener p.cfg.graph inp none else []
      atom_virial := if atomic then net.atom_virial p.cfg.graph inp none else [] }

/-- Modelled from the spec: the private `compute` overload with a neighbor
list takes `nghost`, the input neighbor list and `ago` in addition, and
drives the `forward_lower` (message-passing) graph through `predictor_fl`;
the atomic breakdowns are produced only when `atomic` is true. -/
def compute_nlist {R : Type} (net : NetEval R) (dp : DeepPotPD)
    (inp : DirectIn R) (extra : NlistExtra) (atomic : Bool) :
    Option (ComputeOut R) :=
  dp.predictor_fl.map fun p =>
    { graphUsed := p.cfg.graph
      ener := net.ener p.cfg.graph inp (some extra)
      force := net.force p.cfg.graph inp (some extra)
      virial := net.virial p.cfg.graph inp (some extra)
      atom_energy := if atomic then net.atom_ener p.cfg.graph inp (some extra) else []
      atom_virial := if atomic then net.atom_virial p.cfg.graph inp (some extra) else [] }

/-- A concrete initialized object for witnesses. -/
def sampleDP : DeepPotPD :=
  { inited := true
    ntypes := 2
    ntypes_spin := 0
    dfparam := 3
    daparam := 2
    aparam_nall := 1
    rcut := 6
    gpu_id := 0
    config := none
    predictor := none
    config_fl := none
    predictor_fl := none }

/-- A concrete metadata reader for witnesses. -/
def sampleMeta : String → ModelMeta :=
  fun _ => ⟨2, 0, 3, 2, 1, 6⟩

/-- A concrete file system for witnesses. -/
def sampleFS : String → String :=
  fun _ => "file-bytes"

theorem wrap32_emod (x : Int) : wrap32 x % 4294967296 = x % 4294967296 := by
  unfold wrap32; omega

theorem wrap32_lb (x : Int) : -2147483648 ≤ wrap32 x := by
  unfold wrap32; omega

theorem wrap32_ub (x : Int) : wrap32 x < 2147483648 := by
  unfold wrap32; omega

theorem numel_loop_emod (shape : List Int) : ∀ r : Int,
    (shape.foldl (fun ret x => wrap32 (ret * x)) r) % 4294967296 =
      (r * shape.prod) % 4294967296 := by
  induction shape with
  | nil => intro r; simp
  | cons x xs ih =>
      intro r
      rw [List.foldl_cons, List.prod_cons, ih, ← mul_assoc,
        Int.mul_emod (wrap32 (r * x)) xs.prod, wrap32_emod,
        ← Int.mul_emod]

theorem numel_loop_range (shape : List Int) : ∀ r : Int,
    -2147483648 ≤ r → r < 2147483648 →
    -2147483648 ≤ shape.foldl (fun ret x => wrap32 (ret * x)) r ∧
      shape.foldl (fun ret x => wrap32 (ret * x)) r < 2147483648 := by
  induction shape with
  | nil => intro r h1 h2; exact ⟨h1, h2⟩
  | cons x xs ih =>
      intro r _ _
      rw [List.foldl_cons]
      exact ih _ (wrap32_lb _) (wrap32_ub _)

theorem intercalate_go_prepend (l : List String) : ∀ a p : String,
    String.intercalate.go (p ++ a) ", " l = p ++ String.intercalate.go a ", " l := by
  induction l with
  | nil => intro a p; rfl
  | cons b bs ih =>
      intro a p
      show String.intercalate.go (p ++ a ++ ", " ++ b) ", " bs =
        p ++ String.intercalate.go (a ++ ", " ++ b) ", " bs
      rw [String.append_assoc p a ", ", String.append_assoc p (a ++ ", ") b]
      exact ih (a ++ ", " ++ b) p

theorem shape_str_loop_go (xs : List Int) : ∀ (i : Nat) (acc : String),
    shape_str_loop xs (i + 1) acc = String.intercalate.go acc ", " (xs.map toString) := by
  induction xs with
  | nil => intro i acc; rfl
  | cons x xs ih =>
      intro i acc
      show shape_str_loop xs (i + 1 + 1)
          ((if 0 < i + 1 then acc ++ ", " else acc) ++ toString x) = _
      rw [if_pos (Nat.succ_pos i), ih]
      rfl

/-- Claim C1: every potential-evaluation entry point of `DeepPotPD` — the
`computew` and `computew_mixed_type` overloads and the private `compute` /
`compute_mixed_type` templates they forward to — takes coordinates, atom
types, the box, and the frame and atomic parameters as plain numeric input
vectors, and returns energy, force, virial and the per-atom breakdowns
through plain numeric output vectors. -/
theorem C1_entry_points_plain_numeric_vectors :
    entrySigs.all plainNumericVectors = true := by decide

/-- Claim C2: after `init`, a `DeepPotPD` object holds two separate
config/predictor pairs, `config`/`predictor` bound to the direct `forward`
graph and `config_fl`/`predictor_fl` bound to the `forward_lower` graph,
and all four are data members of the class. -/
theorem C2_two_engine_pairs (meta : String → ModelMeta) (fs : String → String)
    (model : String) (gpu_rank : Int) (file_content : String) :
    (∃ c p, (initState meta fs model gpu_rank file_content).config = some c ∧
      (initState meta fs model gpu_rank file_content).predictor = some p ∧
      c.graph = Graph.forward ∧ p.cfg = c) ∧
    (∃ c p, (initState meta fs model gpu_rank file_content).config_fl = some c ∧
      (initState meta fs model gpu_rank file_content).predictor_fl = some p ∧
      c.graph = Graph.forwardLower ∧ p.cfg = c) ∧
    (initState meta fs model gpu_rank file_content).config ≠
      (initState meta fs model gpu_rank file_content).config_fl ∧
    (("config", CppType.sharedPtrConfig) ∈ dataMembers ∧
      ("predictor", CppType.sharedPtrPredictor) ∈ dataMembers ∧
      ("config_fl", CppType.sharedPtrConfig) ∈ dataMembers ∧
      ("predictor_fl", CppType.sharedPtrPredictor) ∈ dataMembers) := by
  refine ⟨⟨_, _, rfl, rfl, rfl, rfl⟩, ⟨_, _, rfl, rfl, rfl, rfl⟩, ?_, by simp [dataMembers]⟩
  intro h
  simp only [initState, Option.some.injEq] at h
  exact Graph.noConfusion (congrArg EngineConfig.graph h)

/-- Claim C3: the neighbor-list-based evaluation path is the `compute`
overload that additionally takes `nghost`, an `InputNlist` and `ago`; it
drives the `forward_lower` graph, while the overload without a neighbor
list drives the direct `forward` graph. -/
theorem C3_nlist_path_drives_forward_lower {R : Type} (net : NetEval R)
    (meta : String → ModelMeta) (fs : String → String) (model : String)
    (gpu_rank : Int) (file_content : String) (inp : DirectIn R)
    (extra : NlistExtra) (atomic : Bool) :
    ((compute_nlist net (initState meta fs model gpu_rank file_content)
        inp extra atomic).map ComputeOut.graphUsed = some Graph.forwardLower) ∧
    ((compute net (initState meta fs model gpu_rank file_content)
        inp atomic).map ComputeOut.graphUsed = some Graph.forward) ∧
    ((compute_nlist_sig CppType.double CppType.vecDouble).any
        (fun p => p.pname == "nghost" && p.dir == Dir.inP && p.ty == CppType.int) = true ∧
      (compute_nlist_sig CppType.double CppType.vecDouble).any
        (fun p => p.pname == "lmp_list" && p.dir == Dir.inP && p.ty == CppType.inputNlist) = true ∧
      (compute_nlist_sig CppType.double CppType.vecDouble).any
        (fun p => p.pname == "ago" && p.dir == Dir.inP && p.ty == CppType.int) = true ∧
      (compute_sig CppType.double CppType.vecDouble).all
        (fun p => !(p.ty == CppType.inputNlist)) = true) :=
  ⟨rfl, rfl, by decide⟩

/-- Claim C4: `init` and the initializing constructor load the serialized
model named by `model`; when `file_content` is non-empty the model is read
from that string instead of the file; `gpu_rank` defaults to `0` and
`file_content` defaults to the empty string. -/
theorem C4_init_model_loading (meta : String → ModelMeta)
    (fs : String → String) (model : String) (gpu_rank : Int)
    (file_content : String) :
    (file_content ≠ "" →
      (initState meta fs model gpu_rank file_content).config =
        some ⟨Graph.forward, file_content⟩) ∧
    ((initState meta fs model gpu_rank "").config =
      some ⟨Graph.forward, fs model⟩) ∧
    init_sig = ctor_sig ∧
    init_sig.map (fun p => (p.pname, p.dflt)) =
      [("model", CppDefaultVal.noDefault),
       ("gpu_rank", CppDefaultVal.intVal 0),
       ("file_content", CppDefaultVal.strVal "")] := by
  refine ⟨fun h => ?_, ?_, rfl, rfl⟩
  · simp [initState, loadedBytes, h]
  · simp [initState, loadedBytes]

/-- Witness for C4 at concrete inputs with non-empty `file_content`. -/
theorem C4_init_model_loading_witness :
    (initState sampleMeta sampleFS "model.json" 0 "serialized-content").config =
      some ⟨Graph.forward, "serialized-content"⟩ :=
  (C4_init_model_loading sampleMeta sampleFS "model.json" 0
    "serialized-content").1 (by decide)

/-- Claim C5: for every evaluation call, the per-atom breakdowns
(`atom_energy`, `atom_virial`) are populated exactly when `atomic` is true;
when it is false only the total energy, force and virial are produced, and
those three do not depend on the flag. -/
theorem C5_atomic_flag_gates_breakdowns {R : Type} (net : NetEval R)
    (meta : String → ModelMeta) (fs : String → String) (model : String)
    (gpu_rank : Int) (file_content : String) (inp : DirectIn R)
    (extra : NlistExtra) :
    ((compute net (initState meta fs model gpu_rank file_content) inp
        false).map ComputeOut.atom_energy = some []) ∧
    ((compute net (initState meta fs model gpu_rank file_content) inp
        false).map ComputeOut.atom_virial = some []) ∧
    ((compute net (initState meta fs model gpu_rank file_content) inp
        true).map ComputeOut.atom_energy =
      some (net.atom_ener Graph.forward inp none)) ∧
    ((compute net (initState meta fs model gpu_rank file_content) inp
        true).map ComputeOut.atom_virial =
      some (net.atom_virial Graph.forward inp none)) ∧
    ((compute net (initState meta fs model gpu_rank file_content) inp
        true).map ComputeOut.ener =
      (compute net (initState meta fs model gpu_rank file_content) inp
        false).map ComputeOut.ener) ∧
    ((compute net (initState meta fs model gpu_rank file_content) inp
        true).map ComputeOut.force =
      (compute net (initState meta fs model gpu_rank file_content) inp
        false).map ComputeOut.force) ∧
    ((compute net (initState meta fs model gpu_rank file_content) inp
        true).map ComputeOut.virial =
      (compute net (initState meta fs model gpu_rank file_content) inp
        false).map ComputeOut.virial) ∧
    ((compute_nlist net (initState meta fs model gpu_rank file_content) inp
        extra false).map ComputeOut.atom_energy = some []) ∧
    ((compute_nlist net (initState meta fs model gpu_rank file_content) inp
        extra false).map ComputeOut.atom_virial = some []) ∧
    ((compute_nlist net (initState meta fs model gpu_rank file_content) inp
        extra true).map ComputeOut.atom_energy =
      some (net.atom_ener Graph.forwardLower inp (some extra))) ∧
    ((compute_nlist net (initState meta fs model gpu_rank file_content) inp
        extra true).map ComputeOut.atom_virial =
      some (net.atom_virial Graph.forwardLower inp (some extra))) :=
  ⟨rfl, rfl, rfl, rfl, rfl, rfl, rfl, rfl, rfl, rfl, rfl⟩

/-- Claim C6: on an initialized object, `cutoff()` returns the stored
`rcut` and leaves the object unchanged; on an uninitialized object the
`assert(inited)` fires, so no value is returned. -/
theorem C6_cutoff_returns_rcut (dp : DeepPotPD) :
    (dp.inited = true → DeepPotPD.cutoff dp = (some dp.rcut, dp)) ∧
    (dp.inited = false → (DeepPotPD.cutoff dp).1 = none) := by
  constructor <;> intro h <;> simp [DeepPotPD.cutoff, h]

/-- Witness for C6 at a concrete initialized object. -/
theorem C6_cutoff_returns_rcut_witness :
    DeepPotPD.cutoff sampleDP = (some sampleDP.rcut, sampleDP) :=
  (C6_cutoff_returns_rcut sampleDP).1 rfl

/-- Claim C7: on an initialized object, `dim_fparam()` returns the stored
`dfparam` and `dim_aparam()` returns the stored `daparam`; both are `const`
accessors guarded by `assert(inited)` and leave the object unchanged. -/
theorem C7_dim_accessors (dp : DeepPotPD) (h : dp.inited = true) :
    DeepPotPD.dim_fparam dp = (some dp.dfparam, dp) ∧
    DeepPotPD.dim_aparam dp = (some dp.daparam, dp) := by
  constructor <;> simp [DeepPotPD.dim_fparam, DeepPotPD.dim_aparam, h]

/-- Witness for C7 at a concrete initialized object. -/
theorem C7_dim_accessors_witness :
    DeepPotPD.dim_fparam sampleDP = (some sampleDP.dfparam, sampleDP) ∧
    DeepPotPD.dim_aparam sampleDP = (some sampleDP.daparam, sampleDP) :=
  C7_dim_accessors sampleDP rfl

/-- Claim C8: `numel` multiplies the shape entries into a 32-bit signed
`int` accumulator starting at `1` (so the empty shape yields `1`); the
result lies in `[-2^31, 2^31)`, agrees with the true product modulo `2^32`,
and equals the true product exactly when that product fits in a 32-bit
signed `int`. -/
theorem C8_numel_int32_overflow (shape : List Int) :
    numel [] = 1 ∧
    numel shape % 4294967296 = shape.prod % 4294967296 ∧
    (-2147483648 ≤ numel shape ∧ numel shape < 2147483648) ∧
    (numel shape = shape.prod ↔
      (-2147483648 ≤ shape.prod ∧ shape.prod < 2147483648)) := by
  have hm : numel shape % 4294967296 = shape.prod % 4294967296 := by
    have := numel_loop_emod shape 1
    rw [one_mul] at this
    exact this
  have hr : -2147483648 ≤ numel shape ∧ numel shape < 2147483648 :=
    numel_loop_range shape 1 (by norm_num) (by norm_num)
  refine ⟨rfl, hm, hr, ?_, ?_⟩
  · intro he
    rw [← he]
    exact hr
  · intro hp
    obtain ⟨hr1, hr2⟩ := hr
    omega

/-- Claim C10: `print_shape` writes exactly `[`, the shape entries in order
separated by `, `, and `]` (in particular `[]` for an empty shape), and as
a `const` member leaves the object unchanged. -/
theorem C10_print_shape_format (dp : DeepPotPD) (x_shape : List Int) :
    (DeepPotPD.print_shape_run dp x_shape).1 = shape_spec_string x_shape ∧
    (DeepPotPD.print_shape_run dp x_shape).2 = dp := by
  refine ⟨?_, rfl⟩
  show print_shape x_shape = shape_spec_string x_shape
  cases x_shape with
  | nil => rfl
  | cons x xs =>
      show shape_str_loop xs (0 + 1) ("[" ++ toString x) ++ "]" = _
      rw [shape_str_loop_go xs 0 ("[" ++ toString x),
        intercalate_go_prepend (xs.map toString) (toString x) "["]
      rfl

/-- Claim C9: on an initialized object, `is_aparam_nall()` returns `true`
exactly when the stored `int` field `aparam_nall` is nonzero (the C++
int-to-bool conversion), and leaves the object unchanged. -/
theorem C9_is_aparam_nall_nonzero (dp : DeepPotPD) (h : dp.inited = true) :
    ((DeepPotPD.is_aparam_nall dp).1 = some true ↔ dp.aparam_nall ≠ 0) ∧
    (DeepPotPD.is_aparam_nall dp).2 = dp := by
  refine ⟨?_, rfl⟩
  simp [DeepPotPD.is_aparam_nall, h]

/-- Witness for C9 at a concrete initialized object with nonzero
`aparam_nall`. -/
theorem C9_is_aparam_nall_nonzero_witness :
    (DeepPotPD.is_aparam_nall sampleDP).1 = some true :=
  ((C9_is_aparam_nall_nonzero sampleDP rfl).1).mpr (by decide)

end deepmd
